import Mathlib

/-!
Verification development for the XML code-conversion system
(`services/common/xml_utils.py`, `services/tester/agent.py`,
`services/gateway/orchestrator.py`).

The Python source is shallowly embedded: pure functions become Lean
functions, the effectful sandbox execution and HTTP collaborator calls
become explicit outcome values (`Except`, outcome inductives), Python
floats become exact rationals, and Python `round` (banker's rounding)
is modelled explicitly by `pyRound`.
-/

set_option maxHeartbeats 1000000

/-- Model of Python `round` on a rational: round half to even
(banker's rounding), as Python 3 `round` does. -/
def pyRound (q : ℚ) : ℤ :=
  if q - (⌊q⌋ : ℚ) < 1/2 then ⌊q⌋
  else if 1/2 < q - (⌊q⌋ : ℚ) then ⌊q⌋ + 1
  else if ⌊q⌋ % 2 = 0 then ⌊q⌋ else ⌊q⌋ + 1

/-- Model of Python `round(x, 4)` on a rational. -/
def round4 (q : ℚ) : ℚ := (pyRound (q * 10000) : ℚ) / 10000

/-- Model of the Python format `f"{q:.0%}"`: percentage with zero
decimal places. -/
def pctStr (q : ℚ) : String := toString (pyRound (q * 100)) ++ "%"

/-- Does the character list start with `pat`? -/
def charsStart : List Char → List Char → Bool
  | [], _ => true
  | _ :: _, [] => false
  | a :: as, b :: bs => a == b && charsStart as bs

/-- Does `pat` occur as a contiguous block inside the character list? -/
def hasSubAux (pat : List Char) : List Char → Bool
  | [] => charsStart pat []
  | b :: bs => charsStart pat (b :: bs) || hasSubAux pat bs

/-- Substring occurrence test used to state non-occurrence of a service
name inside an error message. -/
def hasSub (s pat : String) : Bool := hasSubAux pat.data s.data

/-- Everything after the first closing-brace character, when one
occurs. -/
def dropAfterBrace : List Char → Option (List Char)
  | [] => none
  | c :: rest => if c = Char.ofNat 125 then some rest else dropAfterBrace rest

/-- The whitespace characters Python `str.strip` removes: space, tab,
newline, carriage return, vertical tab, form feed. -/
def pyIsSpace (c : Char) : Bool :=
  c = Char.ofNat 32 ∨ c = Char.ofNat 9 ∨ c = Char.ofNat 10 ∨
  c = Char.ofNat 13 ∨ c = Char.ofNat 11 ∨ c = Char.ofNat 12

/-- Model of Python `str.strip()`: drop leading and trailing
whitespace. -/
def pyStrip (s : String) : String :=
  String.mk (((s.data.dropWhile pyIsSpace).reverse.dropWhile pyIsSpace).reverse)

/-- Model of `_snippet` (`services/tester/agent.py`): strip surrounding
whitespace, keep at most 300 characters, appending `...` on truncation. -/
def snippet (xmlString : String) : String :=
  let text := pyStrip xmlString
  if text.length ≤ 300 then text
  else text.take 300 ++ "..."

/-- Model of `_strip_namespace` (`services/common/xml_utils.py`):
Python `tag.split("}", 1)[1]` when `"}"` occurs in the tag, else the
tag unchanged. -/
def stripNamespace (tag : String) : String :=
  match dropAfterBrace tag.data with
  | none => tag
  | some rest => String.mk rest

/-- First value bound to key `k` in an association list. -/
def lookupStr : List (String × String) → String → Option String
  | [], _ => none
  | kv :: rest, k => if kv.1 = k then some kv.2 else lookupStr rest k

/-- Python-dict insertion: overwrite in place if the key exists, else
append, preserving first-insertion order. -/
def dictInsert (d : List (String × String)) (k v : String) : List (String × String) :=
  if d.any (fun kv => kv.1 = k) then
    d.map (fun kv => if kv.1 = k then (k, v) else kv)
  else d ++ [(k, v)]

/-- Build a Python dict (as an insertion-ordered, key-unique association
list) from a sequence of key/value pairs, later values overwriting. -/
def toDict (l : List (String × String)) : List (String × String) :=
  l.foldl (fun d kv => dictInsert d kv.1 kv.2) []

/-- Python dict equality: same key/value mapping, order-insensitive. -/
def dictEq (a b : List (String × String)) : Bool :=
  a.all (fun kv => lookupStr b kv.1 == some kv.2) &&
  b.all (fun kv => lookupStr a kv.1 == some kv.2)

/-- Model of the Python `repr` of a string-valued dict, used inside the
attribute-mismatch diff message. -/
def attrsRepr (d : List (String × String)) : String :=
  "\x7b" ++ String.intercalate ", "
    (d.map (fun kv => "\x27" ++ kv.1 ++ "\x27: \x27" ++ kv.2 ++ "\x27")) ++ "\x7d"

/-- Parsed XML element: tag, attributes (in document order), text
content (`""` models Python `None`), child elements. This is the shape
`xml.etree.ElementTree` hands to `_compare_elements`; namespace-prefixed
names appear in Clark notation `\x7buri\x7dlocal`. -/
inductive XmlElement where
  | mk (tag : String) (attrib : List (String × String)) (text : String)
       (children : List XmlElement)

def XmlElement.tag : XmlElement → String
  | .mk t _ _ _ => t

def XmlElement.attrib : XmlElement → List (String × String)
  | .mk _ a _ _ => a

def XmlElement.text : XmlElement → String
  | .mk _ _ x _ => x

def XmlElement.children : XmlElement → List XmlElement
  | .mk _ _ _ c => c

/-- Attribute dict of an element as `_compare_elements` builds it:
namespace-stripped keys (when `stripNs`), later duplicates overwriting. -/
def attrsDict (stripNs : Bool) (a : List (String × String)) : List (String × String) :=
  toDict (a.map (fun kv => (if stripNs then stripNamespace kv.1 else kv.1, kv.2)))

mutual

/-- Model of `_compare_elements` (`services/common/xml_utils.py`),
returning the list of difference strings it appends to `diffs`, in
append order: tag mismatch (stopping descent), then text, attributes,
child count, then children pairwise up to the shorter child list. -/
def compareElements : XmlElement → XmlElement → String → Bool → List String
  | .mk t1 a1 x1 c1, .mk t2 a2 x2 c2, path, stripNs =>
    let tag1 := if stripNs then stripNamespace t1 else t1
    let tag2 := if stripNs then stripNamespace t2 else t2
    let current := path ++ "/" ++ tag1
    if tag1 ≠ tag2 then
      ["Tag mismatch at " ++ path ++ ": \x27" ++ tag1 ++ "\x27 vs \x27" ++ tag2 ++ "\x27"]
    else
      (if pyStrip x1 ≠ pyStrip x2 then
        ["Text at " ++ current ++ ": \x27" ++ pyStrip x1 ++ "\x27 vs \x27" ++ pyStrip x2 ++ "\x27"]
      else []) ++
      (let d1 := attrsDict stripNs a1
       let d2 := attrsDict stripNs a2
       if dictEq d1 d2 then []
       else ["Attributes at " ++ current ++ ": " ++ attrsRepr d1 ++ " vs " ++ attrsRepr d2]) ++
      (if c1.length ≠ c2.length then
        ["Child count at " ++ current ++ ": " ++ toString c1.length ++ " vs " ++ toString c2.length]
      else []) ++
      compareChildren c1 c2 current stripNs

/-- The `zip(children1, children2)` recursion of `_compare_elements`:
children compared pairwise by position, stopping at the shorter list. -/
def compareChildren : List XmlElement → List XmlElement → String → Bool → List String
  | c1 :: r1, c2 :: r2, path, stripNs =>
    compareElements c1 c2 path stripNs ++ compareChildren r1 r2 path stripNs
  | _, _, _, _ => []

end

/-- Model of `compare_xml` (`services/common/xml_utils.py`). The
stdlib XML parser (`ET.fromstring`, applied to the stripped string) is
an abstract parameter `parse`; a parse failure on either side yields a
single synthetic difference. Returns `(is_equal, differences)`. -/
def compareXml (parse : String → Except String XmlElement) (stripNs : Bool)
    (xml1 xml2 : String) : Bool × List String :=
  match parse xml1 with
  | .error e => (false, ["XML parse error: " ++ e])
  | .ok root1 =>
    match parse xml2 with
    | .error e => (false, ["XML parse error: " ++ e])
    | .ok root2 =>
      let ds := compareElements root1 root2 "" stripNs
      (ds.isEmpty, ds)

/-- Model of `xml_diff_report` (`services/common/xml_utils.py`): the
fixed identity message when equal, otherwise a header plus the first 20
differences numbered from 1 (Python `enumerate(diffs[:20], 1)`) and a
final `... and N more` line when differences were omitted. -/
def xmlDiffReport (parse : String → Except String XmlElement)
    (expectedXml actualXml : String) : String :=
  let res := compareXml parse true expectedXml actualXml
  if res.1 then "XML documents are identical."
  else
    let ds := res.2
    let taken := ds.take 20
    let numbered := ((List.range' 1 taken.length).zip taken).map
      (fun p => "  " ++ toString p.1 ++ ". " ++ p.2)
    String.intercalate "\n"
      (("Found " ++ toString ds.length ++ " difference(s):") :: numbered ++
       (if 20 < ds.length then ["  ... and " ++ toString (ds.length - 20) ++ " more"] else []))

/-- Numbered rendering of a difference list starting at index `n`, the
way the spec describes the report body; proved equal to the
`enumerate`-style rendering in the code. -/
def numberedFrom (n : ℕ) : List String → List String
  | [] => []
  | d :: rest => ("  " ++ toString n ++ ". " ++ d) :: numberedFrom (n + 1) rest

/-- One input/expected-output example (`XmlPair`,
`services/common/models.py`). -/
structure XmlPair where
  input_xml : String
  output_xml : String
  pair_id : String
deriving DecidableEq

/-- Per-pair verdict (`TestDetail`, `services/common/models.py`). -/
structure TestDetail where
  pair_id : String
  passed : Bool
  expected_snippet : String
  actual_snippet : String
  diff : String
deriving DecidableEq

/-- Aggregate test verdict (`TestResult`, `services/common/models.py`);
the float `accuracy` is modelled as an exact rational. -/
structure TestResult where
  total_pairs : ℕ
  passed_pairs : ℕ
  accuracy : ℚ
  details : List TestDetail
  error_message : String
deriving DecidableEq

/-- Outcome of applying the candidate entry point to one input string
(`transform_fn(pair.input_xml)` in `TesterAgent._test_single_pair`):
it raises (carrying `str(exc)` and the formatted traceback), returns a
non-string (carrying the type name and the `str()` rendering of the
value), or returns a string. Calling a non-callable binding raises
`TypeError` at call time, so it is a `raises` outcome for every input. -/
inductive PairOutcome where
  | raises (desc trace : String)
  | nonStr (typeName reprStr : String)
  | str (value : String)
deriving DecidableEq

/-- The loaded sandbox module as `test_code` observes it:
`getattr(module, "transform_xml", None)` is either absent (`none`) or
some object whose behaviour on each input string is a `PairOutcome`. -/
structure SandboxModule where
  transform : Option (String → PairOutcome)

/-- Outcome of `TesterAgent._load_code_module` as caught by
`test_code`: a `SyntaxError` from `compile`, any other load-time
exception (e.g. a disallowed import executed at module top level), or a
successfully loaded module. -/
inductive LoadOutcome where
  | syntaxError (desc : String)
  | loadError (desc : String)
  | loaded (m : SandboxModule)

/-- Model of `TesterAgent._test_single_pair`
(`services/tester/agent.py`). -/
def testSinglePair (parse : String → Except String XmlElement)
    (f : String → PairOutcome) (pair : XmlPair) : TestDetail :=
  match f pair.input_xml with
  | .raises desc tb =>
    { pair_id := pair.pair_id
      passed := false
      expected_snippet := snippet pair.output_xml
      actual_snippet := ""
      diff := "Runtime error: " ++ desc ++ "\n" ++ tb }
  | .nonStr typeName reprStr =>
    { pair_id := pair.pair_id
      passed := false
      expected_snippet := snippet pair.output_xml
      actual_snippet := reprStr.take 300
      diff := "transform_xml returned " ++ typeName ++ ", expected str." }
  | .str actualXml =>
    let res := compareXml parse true pair.output_xml actualXml
    let report := if res.1 then "" else xmlDiffReport parse pair.output_xml actualXml
    { pair_id := pair.pair_id
      passed := res.1
      expected_snippet := snippet pair.output_xml
      actual_snippet := snippet actualXml
      diff := report }

/-- The per-pair loop of `test_code`: details in input order together
with the count of passed pairs. -/
def runPairs (parse : String → Except String XmlElement)
    (f : String → PairOutcome) : List XmlPair → List TestDetail × ℕ
  | [] => ([], 0)
  | pair :: rest =>
    let detail := testSinglePair parse f pair
    let r := runPairs parse f rest
    (detail :: r.1, (if detail.passed then 1 else 0) + r.2)

/-- Model of `TesterAgent.test_code` (`services/tester/agent.py`).
`load` is the outcome of compiling/executing the candidate source in
the sandbox; `parse` is the abstract stdlib XML parser used by the
comparator. -/
def testCode (parse : String → Except String XmlElement)
    (load : LoadOutcome) (pairs : List XmlPair) : TestResult :=
  match load with
  | .syntaxError desc =>
    { total_pairs := pairs.length, passed_pairs := 0, accuracy := 0,
      details := [], error_message := "Syntax error in generated code: " ++ desc }
  | .loadError desc =>
    { total_pairs := pairs.length, passed_pairs := 0, accuracy := 0,
      details := [],
      error_message := "Failed to load generated code: " ++ desc }
  | .loaded m =>
    match m.transform with
    | none =>
      { total_pairs := pairs.length, passed_pairs := 0, accuracy := 0,
        details := [],
        error_message :=
          "Generated code does not define a \x27transform_xml\x27 function." }
    | some f =>
      let r := runPairs parse f pairs
      let total := pairs.length
      let accuracy : ℚ := if 0 < total then (r.2 : ℚ) / (total : ℚ) else 0
      { total_pairs := total, passed_pairs := r.2, accuracy := round4 accuracy,
        details := r.1, error_message := "" }

/-- Job lifecycle states (`JobStatus`, `services/common/models.py`). -/
inductive JobStatus where
  | pending
  | analyzing
  | generating
  | testing
  | iterating
  | completed
  | failed
deriving DecidableEq

/-- One field mapping of an analysis result
(`FieldMapping`, `services/common/models.py`). -/
structure FieldMapping where
  source_path : String
  target_path : String
  mapping_type : String
  description : String
deriving DecidableEq

/-- One transformation rule of an analysis result
(`TransformationRule`, `services/common/models.py`); the free-form
`details` dict is a pass-through blob and is not modelled. -/
structure TransformationRule where
  rule_id : String
  rule_type : String
  description : String
deriving DecidableEq

/-- Product of the Analyzer (`AnalysisResult`,
`services/common/models.py`); forwarded opaquely by the orchestrator. -/
structure AnalysisResult where
  field_mappings : List FieldMapping
  transformation_rules : List TransformationRule
  input_schema_summary : String
  output_schema_summary : String
  notes : String
deriving DecidableEq

/-- Product of the Generator (`GeneratedCode`,
`services/common/models.py`). -/
structure GeneratedCode where
  code : String
  language : String
  description : String
  iteration : ℕ
deriving DecidableEq

/-- The job record mutated in place by `Orchestrator.run`
(`ConversionJob`, `services/common/models.py`); `created_at` carries no
logic and is not modelled. -/
structure ConversionJob where
  job_id : String
  status : JobStatus
  xml_pairs : List XmlPair
  analysis : Option AnalysisResult
  generated_code : Option GeneratedCode
  test_result : Option TestResult
  current_iteration : ℕ
  max_iterations : ℕ
  accuracy_threshold : ℚ
  message : String

/-- An HTTP response from a collaborator as `_check_response` observes
it: status code, whether `resp.json()` succeeds and what
`body.get("detail", str(body))` yields (`jsonDetail` is the `detail`
field when present, `jsonRepr` is `str(body)`; `jsonRepr = none` models
a body that is not JSON), the raw text, and the already-validated
success payload. -/
structure Response (α : Type) where
  statusCode : ℕ
  jsonDetail : Option String
  jsonRepr : Option String
  text : String
  payload : α

/-- The detail string `_check_response` extracts from an error
response: the JSON `detail` field, else `str(body)`, else the first
500 characters of the raw text when the body is not JSON. -/
def respDetail {α : Type} (resp : Response α) : String :=
  match resp.jsonRepr with
  | some rep => resp.jsonDetail.getD rep
  | none => resp.text.take 500

/-- Model of `Orchestrator._check_response`
(`services/gateway/orchestrator.py`): status ≥ 400 raises
`RuntimeError(f"[service] status: detail")` (the `.error` case carries
`str(exc)`), otherwise the parsed payload is returned. -/
def checkResponse {α : Type} (resp : Response α) (serviceName : String) : Except String α :=
  if 400 ≤ resp.statusCode then
    Except.error ("[" ++ serviceName ++ "] " ++ toString resp.statusCode ++ ": " ++ respDetail resp)
  else
    Except.ok resp.payload

/-- The three external collaborators, abstracted over the HTTP
transport: each call either raises (`.error` carries `str(exc)` of the
transport exception) or yields a `Response`. Calls are indexed by the
iteration number that issues them (and, for Analyze/Generate, by the
feedback string passed along). -/
structure Collabs where
  analyze : ℕ → String → Except String (Response AnalysisResult)
  generate : ℕ → String → Except String (Response GeneratedCode)
  test : ℕ → Except String (Response TestResult)

/-- Which collaborator a recorded call went to. -/
inductive Stage where
  | analyzeStage
  | generateStage
  | testStage
deriving DecidableEq

/-- One recorded collaborator call: the stage and the iteration number
that issued it. -/
structure Event where
  stage : Stage
  iteration : ℕ
deriving DecidableEq

/-- The three calls of one full Analyze-Generate-Test cycle. -/
def stageEvts (i : ℕ) : List Event :=
  [⟨Stage.analyzeStage, i⟩, ⟨Stage.generateStage, i⟩, ⟨Stage.testStage, i⟩]

/-- The calls of iteration `i` up to and including stage `s`. -/
def stageCalls : Stage → ℕ → List Event
  | Stage.analyzeStage, i => [⟨Stage.analyzeStage, i⟩]
  | Stage.generateStage, i => [⟨Stage.analyzeStage, i⟩, ⟨Stage.generateStage, i⟩]
  | Stage.testStage, i => stageEvts i

/-- `n` consecutive full cycles starting at iteration `start`. -/
def cyclesFrom (start n : ℕ) : List Event :=
  (List.range' start n).flatMap stageEvts

/-- The FAILED message set by the exception handler of
`Orchestrator.run`: `f"Error: \x7bexc\x7d\n\x7btraceback.format_exc()\x7d"`. -/
def failMessage (desc tb : String) : String := "Error: " ++ desc ++ "\n" ++ tb

/-- Transition to FAILED taken by the `except` clause of
`Orchestrator.run`; `tb` is the ambient `traceback.format_exc()` text. -/
def failJob (job : ConversionJob) (desc tb : String) : ConversionJob :=
  { job with status := JobStatus.failed, message := failMessage desc tb }

/-- The code run after the `while` loop of `Orchestrator.run` exits
without an early return: status COMPLETED with the
`max iterations reached` message. -/
def exhaustJob (job : ConversionJob) : ConversionJob :=
  { job with
    status := JobStatus.completed
    message := "Completed after " ++ toString job.current_iteration ++
      " iteration(s) with " ++
      (match job.test_result with
       | some r => pctStr r.accuracy
       | none => "N/A") ++ " accuracy (max iterations reached)." }

/-- The lines `Orchestrator._build_feedback` appends for one
`TestDetail` of its loop: nothing for a passed pair; for a failed pair
a label line, then the diff verbatim (when non-empty), else the
expected/actual snippets (when either is non-empty), then a blank
line. -/
def feedbackSection (d : TestDetail) : List String :=
  if d.passed then []
  else
    ("--- Pair " ++ d.pair_id ++ " FAILED ---") ::
    ((if d.diff ≠ "" then ["Diff:\n" ++ d.diff]
      else if d.expected_snippet ≠ "" ∨ d.actual_snippet ≠ "" then
        ["Expected snippet:\n" ++ d.expected_snippet,
         "Actual snippet:\n" ++ d.actual_snippet]
      else []) ++ [""])

/-- Model of `Orchestrator._build_feedback`
(`services/gateway/orchestrator.py`), a pure function of the job's
test result and accuracy threshold. -/
def buildFeedback (testResult : Option TestResult) (threshold : ℚ) : String :=
  match testResult with
  | none => ""
  | some r =>
    if threshold ≤ r.accuracy then ""
    else
      String.intercalate "\n"
        (["Previous iteration accuracy: " ++ pctStr r.accuracy ++ ".",
          "Passed " ++ toString r.passed_pairs ++ "/" ++ toString r.total_pairs ++ " pairs.",
          ""] ++
         (if r.error_message ≠ "" then ["Error: " ++ r.error_message, ""] else []) ++
         r.details.flatMap feedbackSection)

/-- Model of the `while` loop of `Orchestrator.run`
(`services/gateway/orchestrator.py`). `fuel` is the remaining loop
capacity `max_iterations - current_iteration` (the loop increments
`current_iteration` by exactly one per pass, so this is exact); `tb`
is the ambient `traceback.format_exc()` text used by the exception
handler. Besides the final job, the instrumentation returns the list
of collaborator calls attempted, in order; it does not influence the
job's evolution. -/
def runAux (co : Collabs) (tb : String) : ℕ → ConversionJob → String → ConversionJob × List Event
  | 0, job, _ => (exhaustJob job, [])
  | fuel + 1, job, feedback =>
    if job.current_iteration < job.max_iterations then
      let i := job.current_iteration + 1
      let job2 : ConversionJob :=
        { job with
          current_iteration := i
          status := JobStatus.analyzing
          message := if feedback ≠ "" then
              "Re-analyzing rules with feedback (iteration " ++ toString i ++ ")..."
            else "Analyzing XML pairs..." }
      match co.analyze i feedback with
      | Except.error desc => (failJob job2 desc tb, [⟨Stage.analyzeStage, i⟩])
      | Except.ok aresp =>
        match checkResponse aresp "Analyzer" with
        | Except.error desc => (failJob job2 desc tb, [⟨Stage.analyzeStage, i⟩])
        | Except.ok analysis =>
          let job3 : ConversionJob :=
            { job2 with
              analysis := some analysis
              status := JobStatus.generating
              message := "Generating code (iteration " ++ toString i ++ ")..." }
          match co.generate i feedback with
          | Except.error desc =>
            (failJob job3 desc tb, [⟨Stage.analyzeStage, i⟩, ⟨Stage.generateStage, i⟩])
          | Except.ok gresp =>
            match checkResponse gresp "Generator" with
            | Except.error desc =>
              (failJob job3 desc tb, [⟨Stage.analyzeStage, i⟩, ⟨Stage.generateStage, i⟩])
            | Except.ok gcode =>
              let job4 : ConversionJob :=
                { job3 with
                  generated_code := some gcode
                  status := JobStatus.testing
                  message := "Testing generated code (iteration " ++ toString i ++ ")..." }
              match co.test i with
              | Except.error desc => (failJob job4 desc tb, stageEvts i)
              | Except.ok tresp =>
                match checkResponse tresp "Tester" with
                | Except.error desc => (failJob job4 desc tb, stageEvts i)
                | Except.ok tres =>
                  let job5 : ConversionJob := { job4 with test_result := some tres }
                  if job5.accuracy_threshold ≤ tres.accuracy then
                    ({ job5 with
                       status := JobStatus.completed
                       message := "Completed with " ++ pctStr tres.accuracy ++
                         " accuracy after " ++ toString i ++ " iteration(s)." },
                     stageEvts i)
                  else
                    let feedback2 := buildFeedback job5.test_result job5.accuracy_threshold
                    let job6 : ConversionJob :=
                      { job5 with
                        status := if job5.current_iteration < job5.max_iterations then
                            JobStatus.iterating
                          else job5.status
                        message := if job5.current_iteration < job5.max_iterations then
                            "Iteration " ++ toString i ++ " accuracy " ++
                            pctStr tres.accuracy ++ " below threshold " ++
                            pctStr job5.accuracy_threshold ++ " -- re-analyzing rules."
                          else job5.message }
                    let rest := runAux co tb fuel job6 feedback2
                    (rest.1, stageEvts i ++ rest.2)
    else (exhaustJob job, [])

/-- Model of `Orchestrator.run` (`services/gateway/orchestrator.py`):
the full loop starting from the submitted job with empty feedback. -/
def run (co : Collabs) (tb : String) (job : ConversionJob) : ConversionJob × List Event :=
  runAux co tb (job.max_iterations - job.current_iteration) job ""

/-- A collaborator call that makes `Orchestrator.run` fail: either the
transport raised (`.error`, carrying the exception description `D`), or
it returned a non-success response whose `_check_response` rendering is
`D`. -/
def failsWith {α : Type} (r : Except String (Response α)) (serviceName D : String) : Prop :=
  r = Except.error D ∨
  ∃ resp, r = Except.ok resp ∧ 400 ≤ resp.statusCode ∧
    D = "[" ++ serviceName ++ "] " ++ toString resp.statusCode ++ ": " ++ respDetail resp

/-- The namespace-insensitivity example document from the spec,
`<a xmlns:x="u"><x:b>1</x:b></a>`. -/
def nsDoc1 : String := "<a xmlns:x=\"u\"><x:b>1</x:b></a>"

/-- The plain counterpart document `<a><b>1</b></a>`. -/
def nsDoc2 : String := "<a><b>1</b></a>"

/-- `xml.etree.ElementTree` parse of `nsDoc1`: the `xmlns:x`
declaration is not an attribute, and the prefixed child tag is expanded
to Clark notation `\x7bu\x7db`. -/
def nsElem1 : XmlElement := XmlElement.mk "a" [] "" [XmlElement.mk "\x7bu\x7db" [] "1" []]

/-- `xml.etree.ElementTree` parse of `nsDoc2`. -/
def nsElem2 : XmlElement := XmlElement.mk "a" [] "" [XmlElement.mk "b" [] "1" []]

/-- Concrete parser instance mapping the two example documents to their
`ElementTree` parse results. -/
def nsParse : String → Except String XmlElement := fun s =>
  if s = nsDoc1 then Except.ok nsElem1
  else if s = nsDoc2 then Except.ok nsElem2
  else Except.error "no element found: line 1, column 0"

/-- A parser on which every document fails to parse, for exercising the
parse-failure branch in witnesses. -/
def wParse : String → Except String XmlElement := fun _ =>
  Except.error "syntax error: line 1, column 0"

/-- Sample pair for witnesses. -/
def wPair1 : XmlPair := { input_xml := "<i1/>", output_xml := "<o1/>", pair_id := "p1" }

/-- Second sample pair for witnesses. -/
def wPair2 : XmlPair := { input_xml := "<i2/>", output_xml := "<o2/>", pair_id := "p2" }

/-- An entry point that raises on every input, as a non-callable
`transform_xml` binding does when called. -/
def wRaise : String → PairOutcome := fun _ =>
  PairOutcome.raises "TypeError: \x27int\x27 object is not callable" "Traceback (most recent call last)"

/-- Sample analysis payload for orchestrator witnesses. -/
def wAnalysis : AnalysisResult :=
  { field_mappings := [], transformation_rules := [],
    input_schema_summary := "", output_schema_summary := "", notes := "" }

/-- Sample generated-code payload for orchestrator witnesses. -/
def wGen : GeneratedCode :=
  { code := "def transform_xml(x): return x", language := "python",
    description := "", iteration := 1 }

/-- Sample low-accuracy test payload (accuracy 1/2) for orchestrator
witnesses. -/
def wTestLow : TestResult :=
  { total_pairs := 2, passed_pairs := 1, accuracy := 1/2,
    details := [{ pair_id := "p1", passed := false, expected_snippet := "<o1/>",
                  actual_snippet := "", diff := "d" }],
    error_message := "" }

/-- Successful Analyzer response for witnesses. -/
def wRespA : Response AnalysisResult :=
  { statusCode := 200, jsonDetail := none, jsonRepr := none, text := "", payload := wAnalysis }

/-- Successful Generator response for witnesses. -/
def wRespG : Response GeneratedCode :=
  { statusCode := 200, jsonDetail := none, jsonRepr := none, text := "", payload := wGen }

/-- Successful low-accuracy Tester response for witnesses. -/
def wRespT : Response TestResult :=
  { statusCode := 200, jsonDetail := none, jsonRepr := none, text := "", payload := wTestLow }

/-- Collaborators that always succeed with accuracy 1/2. -/
def wCollabsOk : Collabs :=
  { analyze := fun _ _ => Except.ok wRespA
    generate := fun _ _ => Except.ok wRespG
    test := fun _ => Except.ok wRespT }

/-- A freshly submitted job: two iterations allowed, threshold 95%. -/
def wJob : ConversionJob :=
  { job_id := "job-1", status := JobStatus.pending, xml_pairs := [wPair1],
    analysis := none, generated_code := none, test_result := none,
    current_iteration := 0, max_iterations := 2, accuracy_threshold := 19/20,
    message := "" }

/-- Collaborators whose Analyze call raises a transport error on every
iteration (the Generator/Tester behaviours are never reached). -/
def cxCollabs : Collabs :=
  { analyze := fun _ _ => Except.error "Connection refused"
    generate := fun _ _ => Except.ok wRespG
    test := fun _ => Except.ok wRespT }

/-- A Generator error response: HTTP 500 with a JSON `detail` field. -/
def wResp500 : Response GeneratedCode :=
  { statusCode := 500, jsonDetail := some "boom", jsonRepr := some "body",
    text := "raw", payload := wGen }

/-- Collaborators that succeed with low accuracy except that the
Generator returns HTTP 500 at iteration 2. -/
def wCollabsG500 : Collabs :=
  { analyze := fun _ _ => Except.ok wRespA
    generate := fun i _ => if i = 2 then Except.ok wResp500 else Except.ok wRespG
    test := fun _ => Except.ok wRespT }

/-- The load outcomes that make `test_code` return without attempting
any per-pair execution: a load-phase exception, or a loaded module with
no `transform_xml` attribute. -/
def isLoadFailure : LoadOutcome → Prop
  | LoadOutcome.loaded m => m.transform = none
  | _ => True

/-- Witness entry point: raises on the first sample pair's input and
returns a string on every other input. -/
def wF3 : String → PairOutcome := fun s =>
  if s = "<i1/>" then PairOutcome.raises "boom" "TB" else PairOutcome.str "<o2/>"

/-!
## Theorems

Helper lemmas first, then for each claim its theorem (and witness or
counterexample).
-/

theorem pyRound_zero : pyRound 0 = 0 := by
  simp [pyRound]

theorem pyRound_nonneg {q : ℚ} (h : 0 ≤ q) : 0 ≤ pyRound q := by
  have hf : (0 : ℤ) ≤ ⌊q⌋ := Int.floor_nonneg.mpr h
  unfold pyRound
  split
  · exact hf
  · split
    · omega
    · split <;> omega

theorem pyRound_le {q : ℚ} {n : ℤ} (h : q ≤ (n : ℚ)) : pyRound q ≤ n := by
  have hf : ⌊q⌋ ≤ n := by
    have := Int.floor_le_floor h
    simpa using this
  have hstrict : ∀ r : ℚ, r = q - (⌊q⌋ : ℚ) → 0 < r → ⌊q⌋ + 1 ≤ n := by
    intro r hr hpos
    rcases lt_or_eq_of_le hf with hlt | heq
    · omega
    · exfalso
      have hle : q - (⌊q⌋ : ℚ) ≤ 0 := by
        rw [heq]
        simpa using sub_nonpos.mpr h
      rw [← hr] at hle
      exact absurd hpos (not_lt.mpr hle)
  unfold pyRound
  split
  · exact hf
  · rename_i h1
    split
    · rename_i h2
      exact hstrict _ rfl (lt_trans (by norm_num) h2)
    · rename_i h2
      have hhalf : q - (⌊q⌋ : ℚ) = 1/2 := le_antisymm (not_lt.mp h2) (not_lt.mp h1)
      have := hstrict _ rfl (by rw [hhalf]; norm_num)
      split <;> omega

theorem round4_zero : round4 0 = 0 := by
  simp [round4, pyRound_zero]

theorem round4_nonneg {q : ℚ} (h : 0 ≤ q) : 0 ≤ round4 q := by
  unfold round4
  have := pyRound_nonneg (mul_nonneg h (by norm_num : (0:ℚ) ≤ 10000))
  positivity

theorem round4_le_one {q : ℚ} (h : q ≤ 1) : round4 q ≤ 1 := by
  unfold round4
  have h1 : q * 10000 ≤ ((10000 : ℤ) : ℚ) := by
    push_cast
    nlinarith
  have h2 := pyRound_le h1
  rw [div_le_one (by norm_num : (0:ℚ) < 10000)]
  exact_mod_cast h2

theorem numberedFrom_eq_zip (l : List String) :
    ∀ n, ((List.range' n l.length).zip l).map
      (fun p => "  " ++ toString p.1 ++ ". " ++ p.2) = numberedFrom n l := by
  induction l with
  | nil => intro n; simp [numberedFrom]
  | cons d rest ih =>
    intro n
    simp [List.range', numberedFrom, ih (n + 1)]

theorem runPairs_fst (parse : String → Except String XmlElement)
    (f : String → PairOutcome) :
    ∀ pairs : List XmlPair, (runPairs parse f pairs).1 = pairs.map (testSinglePair parse f) := by
  intro pairs
  induction pairs with
  | nil => rfl
  | cons p rest ih => simp [runPairs, ih]

theorem runPairs_snd_le (parse : String → Except String XmlElement)
    (f : String → PairOutcome) :
    ∀ pairs : List XmlPair, (runPairs parse f pairs).2 ≤ pairs.length := by
  intro pairs
  induction pairs with
  | nil => simp [runPairs]
  | cons p rest ih =>
    simp only [runPairs, List.length_cons]
    split <;> omega

theorem runPairs_snd_zero (parse : String → Except String XmlElement)
    (f : String → PairOutcome) :
    ∀ pairs : List XmlPair,
      (∀ p ∈ pairs, (testSinglePair parse f p).passed = false) →
      (runPairs parse f pairs).2 = 0 := by
  intro pairs
  induction pairs with
  | nil => intro _; rfl
  | cons p rest ih =>
    intro h
    have hp := h p (List.mem_cons_self p rest)
    simp [runPairs, hp, ih (fun q hq => h q (List.mem_cons_of_mem p hq))]

theorem ne_empty_of_pos_length {s : String} (h : 0 < s.length) : s ≠ "" := by
  intro he
  rw [he] at h
  simp at h

theorem prefixed_ne_empty (p e : String) (h : 0 < p.length) : p ++ e ≠ "" := by
  apply ne_empty_of_pos_length
  rw [String.length_append]
  omega

theorem cyclesFrom_zero (a : ℕ) : cyclesFrom a 0 = [] := rfl

theorem cyclesFrom_succ (a n : ℕ) :
    cyclesFrom a (n + 1) = stageEvts a ++ cyclesFrom (a + 1) n := by
  simp [cyclesFrom, List.range']

theorem feedbackSection_passed {d : TestDetail} (h : d.passed = true) :
    feedbackSection d = [] := by
  simp [feedbackSection, h]

theorem flatMap_feedbackSection_filter (details : List TestDetail) :
    details.flatMap feedbackSection =
      (details.filter (fun d => d.passed = false)).flatMap feedbackSection := by
  induction details with
  | nil => rfl
  | cons d rest ih =>
    by_cases h : d.passed = true
    · simp [List.filter_cons, h, feedbackSection_passed h, ih]
    · have h' : d.passed = false := by
        cases hd : d.passed
        · rfl
        · exact absurd hd h
      simp [List.filter_cons, h', ih]

theorem runAux_exhausts
    (co : Collabs) (tb : String) (th : ℚ)
    (Aresp : ℕ → String → Response AnalysisResult)
    (Gresp : ℕ → String → Response GeneratedCode)
    (Tresp : ℕ → Response TestResult)
    (hA : ∀ i fb, co.analyze i fb = Except.ok (Aresp i fb))
    (hA4 : ∀ i fb, (Aresp i fb).statusCode < 400)
    (hG : ∀ i fb, co.generate i fb = Except.ok (Gresp i fb))
    (hG4 : ∀ i fb, (Gresp i fb).statusCode < 400)
    (hT : ∀ i, co.test i = Except.ok (Tresp i))
    (hT4 : ∀ i, (Tresp i).statusCode < 400)
    (hTacc : ∀ i, (Tresp i).payload.accuracy < th) :
    ∀ fuel (job : ConversionJob) (fb : String),
      job.accuracy_threshold = th →
      job.max_iterations = job.current_iteration + fuel →
      (fuel = 0 → job.test_result = some (Tresp job.max_iterations).payload) →
      (runAux co tb fuel job fb).1.status = JobStatus.completed ∧
      (runAux co tb fuel job fb).1.message =
        "Completed after " ++ toString job.max_iterations ++ " iteration(s) with " ++
        pctStr (Tresp job.max_iterations).payload.accuracy ++
        " accuracy (max iterations reached)." ∧
      (runAux co tb fuel job fb).2 = cyclesFrom (job.current_iteration + 1) fuel := by
  intro fuel
  induction fuel with
  | zero =>
    intro job fb hth hfuel htr
    have hcur : job.current_iteration = job.max_iterations := by omega
    have htr' := htr rfl
    refine ⟨rfl, ?_, rfl⟩
    simp [runAux, exhaustJob, htr', hcur]
  | succ fuel ih =>
    intro job fb hth hfuel htr
    have hlt : job.current_iteration < job.max_iterations := by omega
    have hA4' : ∀ i fb, ¬ (400 ≤ (Aresp i fb).statusCode) := fun i fb => not_le.mpr (hA4 i fb)
    have hG4' : ∀ i fb, ¬ (400 ≤ (Gresp i fb).statusCode) := fun i fb => not_le.mpr (hG4 i fb)
    have hT4' : ∀ i, ¬ (400 ≤ (Tresp i).statusCode) := fun i => not_le.mpr (hT4 i)
    have hacc' : ¬ (job.accuracy_threshold ≤ (Tresp (job.current_iteration + 1)).payload.accuracy) := by
      rw [hth]
      exact not_le.mpr (hTacc _)
    simp only [runAux, if_pos hlt, hA, hG, hT, checkResponse, hA4', hG4', hT4',
      if_false, if_neg, hacc']
    refine ⟨?_, ?_, ?_⟩
    · exact (ih _ _ (by simp [hth]) (by simp; omega)
        (by intro h0
            have hmx : job.current_iteration + 1 = job.max_iterations := by omega
            simp [hmx])).1
    · exact (ih _ _ (by simp [hth]) (by simp; omega)
        (by intro h0
            have hmx : job.current_iteration + 1 = job.max_iterations := by omega
            simp [hmx])).2.1
    · rw [cyclesFrom_succ]
      congr 1
      exact (ih _ _ (by simp [hth]) (by simp; omega)
        (by intro h0
            have hmx : job.current_iteration + 1 = job.max_iterations := by omega
            simp [hmx])).2.2

theorem runAux_fails
    (co : Collabs) (tb : String) (th : ℚ) (k : ℕ) (s : Stage) (D : String)
    (Aresp : ℕ → String → Response AnalysisResult)
    (Gresp : ℕ → String → Response GeneratedCode)
    (Tresp : ℕ → Response TestResult)
    (AkResp : String → Response AnalysisResult)
    (GkResp : String → Response GeneratedCode)
    (hA : ∀ i fb, i < k →
      co.analyze i fb = Except.ok (Aresp i fb) ∧ (Aresp i fb).statusCode < 400)
    (hG : ∀ i fb, i < k →
      co.generate i fb = Except.ok (Gresp i fb) ∧ (Gresp i fb).statusCode < 400)
    (hT : ∀ i, i < k →
      co.test i = Except.ok (Tresp i) ∧ (Tresp i).statusCode < 400 ∧
        (Tresp i).payload.accuracy < th)
    (hAk : s ≠ Stage.analyzeStage → ∀ fb,
      co.analyze k fb = Except.ok (AkResp fb) ∧ (AkResp fb).statusCode < 400)
    (hGk : s = Stage.testStage → ∀ fb,
      co.generate k fb = Except.ok (GkResp fb) ∧ (GkResp fb).statusCode < 400)
    (hFa : s = Stage.analyzeStage → ∀ fb, failsWith (co.analyze k fb) "Analyzer" D)
    (hFg : s = Stage.generateStage → ∀ fb, failsWith (co.generate k fb) "Generator" D)
    (hFt : s = Stage.testStage → failsWith (co.test k) "Tester" D) :
    ∀ fuel (job : ConversionJob) (fb : String),
      job.accuracy_threshold = th →
      job.max_iterations = job.current_iteration + fuel →
      job.current_iteration < k →
      k ≤ job.max_iterations →
      (runAux co tb fuel job fb).1.status = JobStatus.failed ∧
      (runAux co tb fuel job fb).1.message = failMessage D tb ∧
      (runAux co tb fuel job fb).2 =
        cyclesFrom (job.current_iteration + 1) (k - job.current_iteration - 1) ++
          stageCalls s k := by
  intro fuel
  induction fuel with
  | zero =>
    intro job fb hth hfuel hck hkm
    omega
  | succ fuel ih =>
    intro job fb hth hfuel hck hkm
    have hlt : job.current_iteration < job.max_iterations := by omega
    by_cases hik : job.current_iteration + 1 = k
    · subst hik
      have hz : job.current_iteration + 1 - job.current_iteration - 1 = 0 := by omega
      cases s with
      | analyzeStage =>
        have hf := hFa rfl fb
        rcases hf with herr | ⟨resp, heq, hcode, hD⟩
        · simp [runAux, if_pos hlt, herr, failJob, stageCalls, hz, cyclesFrom_zero]
        · simp [runAux, if_pos hlt, heq, checkResponse, if_pos hcode, failJob,
            stageCalls, hz, cyclesFrom_zero, hD]
      | generateStage =>
        obtain ⟨ha, ha4⟩ := hAk (by simp) fb
        have hna : ¬ (400 ≤ (AkResp fb).statusCode) := not_le.mpr ha4
        have hf := hFg rfl fb
        rcases hf with herr | ⟨resp, heq, hcode, hD⟩
        · simp [runAux, if_pos hlt, ha, checkResponse, hna, herr, failJob,
            stageCalls, hz, cyclesFrom_zero]
        · simp [runAux, if_pos hlt, ha, checkResponse, hna, heq, if_pos hcode,
            failJob, stageCalls, hz, cyclesFrom_zero, hD]
      | testStage =>
        obtain ⟨ha, ha4⟩ := hAk (by simp) fb
        have hna : ¬ (400 ≤ (AkResp fb).statusCode) := not_le.mpr ha4
        obtain ⟨hg, hg4⟩ := hGk rfl fb
        have hng : ¬ (400 ≤ (GkResp fb).statusCode) := not_le.mpr hg4
        have hf := hFt rfl
        rcases hf with herr | ⟨resp, heq, hcode, hD⟩
        · simp [runAux, if_pos hlt, ha, hg, checkResponse, hna, hng, herr,
            failJob, stageCalls, stageEvts, hz, cyclesFrom_zero]
        · simp [runAux, if_pos hlt, ha, hg, checkResponse, hna, hng, heq,
            if_pos hcode, failJob, stageCalls, stageEvts, hz, cyclesFrom_zero, hD]
    · have hikk : job.current_iteration + 1 < k := by omega
      obtain ⟨ha, ha4⟩ := hA _ fb hikk
      obtain ⟨hg, hg4⟩ := hG _ fb hikk
      obtain ⟨ht, ht4, htacc⟩ := hT _ hikk
      have hna : ¬ (400 ≤ (Aresp (job.current_iteration + 1) fb).statusCode) := not_le.mpr ha4
      have hng : ¬ (400 ≤ (Gresp (job.current_iteration + 1) fb).statusCode) := not_le.mpr hg4
      have hnt : ¬ (400 ≤ (Tresp (job.current_iteration + 1)).statusCode) := not_le.mpr ht4
      have hacc' : ¬ (job.accuracy_threshold ≤
          (Tresp (job.current_iteration + 1)).payload.accuracy) := by
        rw [hth]
        exact not_le.mpr htacc
      simp only [runAux, if_pos hlt, ha, hg, ht, checkResponse, hna, hng, hnt,
        if_false, if_neg, hacc']
      refine ⟨?_, ?_, ?_⟩
      · exact (ih _ _ (by simp [hth]) (by simp; omega) (by simp; omega) (by simp; omega)).1
      · exact (ih _ _ (by simp [hth]) (by simp; omega) (by simp; omega) (by simp; omega)).2.1
      · have hn : k - job.current_iteration - 1 =
            (k - (job.current_iteration + 1) - 1) + 1 := by omega
        rw [hn, cyclesFrom_succ, List.append_assoc]
        congr 1
        exact (ih _ _ (by simp [hth]) (by simp; omega) (by simp; omega) (by simp; omega)).2.2

theorem compareXml_fst (parse : String → Except String XmlElement)
    (stripNs : Bool) (x1 x2 : String) :
    (compareXml parse stripNs x1 x2).1 = (compareXml parse stripNs x1 x2).2.isEmpty := by
  unfold compareXml
  cases h1 : parse x1 with
  | error e => simp
  | ok r1 =>
    cases h2 : parse x2 with
    | error e => simp
    | ok r2 => simp

/-- C2: a load failure (syntax error or other load-time exception) or a
missing `transform_xml` entry point short-circuits `test_code`: the
result has `total_pairs = len(pairs)`, `passed_pairs = 0`,
`accuracy = 0.0`, an empty details list and a non-empty top-level error
message, and no per-pair execution is attempted. -/
theorem testCode_load_failure_short_circuits
    (parse : String → Except String XmlElement) (load : LoadOutcome)
    (pairs : List XmlPair) (h : isLoadFailure load) :
    (testCode parse load pairs).total_pairs = pairs.length ∧
    (testCode parse load pairs).passed_pairs = 0 ∧
    (testCode parse load pairs).accuracy = 0 ∧
    (testCode parse load pairs).details = [] ∧
    (testCode parse load pairs).error_message ≠ "" := by
  cases load with
  | syntaxError desc =>
    exact ⟨rfl, rfl, rfl, rfl, prefixed_ne_empty _ _ (by decide)⟩
  | loadError desc =>
    exact ⟨rfl, rfl, rfl, rfl, prefixed_ne_empty _ _ (by decide)⟩
  | loaded m =>
    cases m with
    | mk t =>
      have ht : t = none := h
      subst ht
      refine ⟨rfl, rfl, rfl, rfl, ?_⟩
      show ("Generated code does not define a \x27transform_xml\x27 function." : String) ≠ ""
      decide

/-- C2 witness: a syntax-error load outcome on two pairs. -/
theorem testCode_load_failure_short_circuits_witness :
    isLoadFailure (LoadOutcome.syntaxError "invalid syntax") ∧
    (testCode wParse (LoadOutcome.syntaxError "invalid syntax") [wPair1, wPair2]).total_pairs = 2 ∧
    (testCode wParse (LoadOutcome.syntaxError "invalid syntax") [wPair1, wPair2]).passed_pairs = 0 ∧
    (testCode wParse (LoadOutcome.syntaxError "invalid syntax") [wPair1, wPair2]).accuracy = 0 ∧
    (testCode wParse (LoadOutcome.syntaxError "invalid syntax") [wPair1, wPair2]).details = [] ∧
    (testCode wParse (LoadOutcome.syntaxError "invalid syntax") [wPair1, wPair2]).error_message ≠ "" := by
  have key := testCode_load_failure_short_circuits wParse
    (LoadOutcome.syntaxError "invalid syntax") [wPair1, wPair2] trivial
  exact ⟨trivial, key.1, key.2.1, key.2.2.1, key.2.2.2.1, key.2.2.2.2⟩

/-- C3: when the loaded candidate's entry point raises on some pair's
input, that pair alone gets a failed `TestDetail` whose diff carries
the exception description, with the expected snippet populated and the
actual snippet empty; and every pair is still executed and reported,
one detail per input pair in input order. -/
theorem testCode_runtime_exception_isolated
    (parse : String → Except String XmlElement) (f : String → PairOutcome)
    (pairs : List XmlPair) :
    (testCode parse (LoadOutcome.loaded ⟨some f⟩) pairs).details =
      pairs.map (testSinglePair parse f) ∧
    (∀ pair desc tb, f pair.input_xml = PairOutcome.raises desc tb →
      testSinglePair parse f pair =
        { pair_id := pair.pair_id, passed := false,
          expected_snippet := snippet pair.output_xml, actual_snippet := "",
          diff := "Runtime error: " ++ desc ++ "\n" ++ tb }) := by
  constructor
  · simp [testCode, runPairs_fst]
  · intro pair desc tb hp
    simp [testSinglePair, hp]

/-- C3 witness: the entry point raises on the first pair's input and
returns a string on the second; both pairs are reported, and the first
detail carries the runtime-error diagnostic. -/
theorem testCode_runtime_exception_isolated_witness :
    (testCode wParse (LoadOutcome.loaded ⟨some wF3⟩) [wPair1, wPair2]).details =
      [wPair1, wPair2].map (testSinglePair wParse wF3) ∧
    testSinglePair wParse wF3 wPair1 =
      { pair_id := wPair1.pair_id, passed := false,
        expected_snippet := snippet wPair1.output_xml, actual_snippet := "",
        diff := "Runtime error: " ++ "boom" ++ "\n" ++ "TB" } := by
  have key := testCode_runtime_exception_isolated wParse wF3 [wPair1, wPair2]
  exact ⟨key.1, key.2 wPair1 "boom" "TB" (by decide)⟩

/-- C4: every `ScoreResult` produced by `test_code` satisfies
`0 ≤ accuracy ≤ 1`; `accuracy = round(passed_pairs/total_pairs, 4)`
when `total_pairs > 0`, and `accuracy = 0.0` when `total_pairs = 0`. -/
theorem testCode_accuracy_invariants
    (parse : String → Except String XmlElement) (load : LoadOutcome)
    (pairs : List XmlPair) :
    0 ≤ (testCode parse load pairs).accuracy ∧
    (testCode parse load pairs).accuracy ≤ 1 ∧
    (0 < (testCode parse load pairs).total_pairs →
      (testCode parse load pairs).accuracy =
        round4 (((testCode parse load pairs).passed_pairs : ℚ) /
                ((testCode parse load pairs).total_pairs : ℚ))) ∧
    ((testCode parse load pairs).total_pairs = 0 →
      (testCode parse load pairs).accuracy = 0) := by
  cases load with
  | syntaxError desc =>
    refine ⟨le_refl 0, by show (0:ℚ) ≤ 1; norm_num, ?_, fun _ => rfl⟩
    intro _
    simp [testCode, round4_zero]
  | loadError desc =>
    refine ⟨le_refl 0, by show (0:ℚ) ≤ 1; norm_num, ?_, fun _ => rfl⟩
    intro _
    simp [testCode, round4_zero]
  | loaded m =>
    cases m with
    | mk t =>
      cases t with
      | none =>
        refine ⟨le_refl 0, by show (0:ℚ) ≤ 1; norm_num, ?_, fun _ => rfl⟩
        intro _
        simp [testCode, round4_zero]
      | some f =>
        have hle := runPairs_snd_le parse f pairs
        by_cases hp : 0 < pairs.length
        · have hq0 : (0 : ℚ) ≤ ((runPairs parse f pairs).2 : ℚ) / (pairs.length : ℚ) := by
            apply div_nonneg <;> positivity
          have hq1 : ((runPairs parse f pairs).2 : ℚ) / (pairs.length : ℚ) ≤ 1 := by
            rw [div_le_one (by exact_mod_cast hp)]
            exact_mod_cast hle
          refine ⟨?_, ?_, ?_, ?_⟩
          · simp only [testCode, if_pos hp]
            exact round4_nonneg hq0
          · simp only [testCode, if_pos hp]
            exact round4_le_one hq1
          · intro _
            simp only [testCode, if_pos hp]
          · intro hz
            simp only [testCode] at hz
            omega
        · have hz : pairs.length = 0 := by omega
          refine ⟨?_, ?_, ?_, ?_⟩
          · simp [testCode, hp, round4_zero]
          · simp [testCode, hp, round4_zero]
          · intro hc
            simp only [testCode] at hc
            omega
          · intro _
            simp [testCode, hp, round4_zero]

/-- C4 witness: a concrete run with one raising pair out of two. -/
theorem testCode_accuracy_invariants_witness :
    0 ≤ (testCode wParse (LoadOutcome.loaded ⟨some wF3⟩) [wPair1, wPair2]).accuracy ∧
    (testCode wParse (LoadOutcome.loaded ⟨some wF3⟩) [wPair1, wPair2]).accuracy ≤ 1 ∧
    (testCode wParse (LoadOutcome.loaded ⟨some wF3⟩) [wPair1, wPair2]).accuracy =
      round4 (((testCode wParse (LoadOutcome.loaded ⟨some wF3⟩) [wPair1, wPair2]).passed_pairs : ℚ) /
              ((testCode wParse (LoadOutcome.loaded ⟨some wF3⟩) [wPair1, wPair2]).total_pairs : ℚ)) := by
  have key := testCode_accuracy_invariants wParse (LoadOutcome.loaded ⟨some wF3⟩) [wPair1, wPair2]
  exact ⟨key.1, key.2.1, key.2.2.1 (by decide)⟩

/-- C10 counterexample: a candidate whose source binds
`transform_xml = None` binds the entry point to a non-callable value,
yet `getattr(module, "transform_xml", None) is None` treats it as
missing: on two pairs, `test_code` reports the whole-run load failure
with an empty details list (`len(details) = 0 ≠ 2 = len(pairs)`) and
executes no pair — the opposite of the claimed behaviour for
non-callable bindings. -/
theorem testCode_none_binding_is_load_failure :
    (testCode wParse (LoadOutcome.loaded ⟨none⟩) [wPair1, wPair2]).error_message =
      "Generated code does not define a \x27transform_xml\x27 function." ∧
    (testCode wParse (LoadOutcome.loaded ⟨none⟩) [wPair1, wPair2]).details = [] ∧
    (testCode wParse (LoadOutcome.loaded ⟨none⟩) [wPair1, wPair2]).details.length ≠
      [wPair1, wPair2].length ∧
    (testCode wParse (LoadOutcome.loaded ⟨none⟩) [wPair1, wPair2]).passed_pairs = 0 := by
  refine ⟨rfl, rfl, by decide, rfl⟩

/-- C10 (amended): the entry-point check tests only that
`getattr(module, "transform_xml", None)` is not `None`, not that the
binding is callable. A module binding `transform_xml = None` (itself a
non-callable value) is therefore treated as a missing entry point:
whole-run load failure, empty details, no per-pair execution. Every
other non-callable binding passes the check, and calling it raises
`TypeError` per pair (modelled as an entry point raising on every
input), so no whole-run load failure is reported, every pair is
executed, each detail is failed with a runtime-error diagnostic, and
`total_pairs = len(details) = len(pairs)` with `passed_pairs = 0`. -/
theorem testCode_entry_point_presence_only
    (parse : String → Except String XmlElement) (f : String → PairOutcome)
    (pairs : List XmlPair)
    (h : ∀ sIn, ∃ desc tb, f sIn = PairOutcome.raises desc tb) :
    (testCode parse (LoadOutcome.loaded ⟨none⟩) pairs).details = [] ∧
    (testCode parse (LoadOutcome.loaded ⟨none⟩) pairs).error_message ≠ "" ∧
    (testCode parse (LoadOutcome.loaded ⟨some f⟩) pairs).error_message = "" ∧
    (testCode parse (LoadOutcome.loaded ⟨some f⟩) pairs).total_pairs = pairs.length ∧
    (testCode parse (LoadOutcome.loaded ⟨some f⟩) pairs).details.length = pairs.length ∧
    (testCode parse (LoadOutcome.loaded ⟨some f⟩) pairs).passed_pairs = 0 ∧
    ∀ d ∈ (testCode parse (LoadOutcome.loaded ⟨some f⟩) pairs).details,
      d.passed = false ∧
      ∃ desc tb, d.diff = "Runtime error: " ++ desc ++ "\n" ++ tb := by
  have hall : ∀ p, (testSinglePair parse f p).passed = false := by
    intro p
    obtain ⟨desc, tb, hp⟩ := h p.input_xml
    simp [testSinglePair, hp]
  refine ⟨rfl, ?_, rfl, rfl, ?_, ?_, ?_⟩
  · show ("Generated code does not define a \x27transform_xml\x27 function." : String) ≠ ""
    decide
  · simp [testCode, runPairs_fst]
  · exact runPairs_snd_zero parse f pairs (fun p _ => hall p)
  · intro d hd
    have hd' : d ∈ pairs.map (testSinglePair parse f) := by
      rw [← runPairs_fst parse f pairs]
      exact hd
    obtain ⟨p, hp, heq⟩ := List.mem_map.mp hd'
    obtain ⟨desc, tb, hpf⟩ := h p.input_xml
    constructor
    · rw [← heq]
      exact hall p
    · refine ⟨desc, tb, ?_⟩
      rw [← heq]
      simp [testSinglePair, hpf]

/-- C10 (amended) witness: the `None` binding short-circuits with no
details, while a `transform_xml` bound to any other non-callable value
(modelled as an entry point raising `TypeError` on every input) runs
and reports both pairs. -/
theorem testCode_entry_point_presence_only_witness :
    (testCode wParse (LoadOutcome.loaded ⟨none⟩) [wPair1, wPair2]).details = [] ∧
    (testCode wParse (LoadOutcome.loaded ⟨none⟩) [wPair1, wPair2]).error_message ≠ "" ∧
    (testCode wParse (LoadOutcome.loaded ⟨some wRaise⟩) [wPair1, wPair2]).error_message = "" ∧
    (testCode wParse (LoadOutcome.loaded ⟨some wRaise⟩) [wPair1, wPair2]).total_pairs = 2 ∧
    (testCode wParse (LoadOutcome.loaded ⟨some wRaise⟩) [wPair1, wPair2]).details.length = 2 ∧
    (testCode wParse (LoadOutcome.loaded ⟨some wRaise⟩) [wPair1, wPair2]).passed_pairs = 0 := by
  have key := testCode_entry_point_presence_only wParse wRaise [wPair1, wPair2]
    (fun sIn => ⟨"TypeError: \x27int\x27 object is not callable",
      "Traceback (most recent call last)", rfl⟩)
  exact ⟨key.1, key.2.1, key.2.2.1, key.2.2.2.1, key.2.2.2.2.1, key.2.2.2.2.2.1⟩

/-- C6: `compare_xml` is namespace-prefix-insensitive: comparing
`<a xmlns:x="u"><x:b>1</x:b></a>` (whose prefixed child parses to the
Clark-notation tag `\x7bu\x7db`) against `<a><b>1</b></a>` yields equal
with an empty difference list. -/
theorem compare_xml_namespace_insensitive :
    compareXml nsParse true nsDoc1 nsDoc2 = (true, []) := by
  decide

/-- C7: the diff report is the fixed identity message exactly when the
comparison records zero differences; otherwise it is a header plus the
first 20 differences numbered from 1 and exactly one trailing
`... and N more` line if and only if more than 20 differences were
recorded, `N` being the number of omitted differences. -/
theorem xml_diff_report_shape
    (parse : String → Except String XmlElement) (x1 x2 : String) :
    ((compareXml parse true x1 x2).1 = true ↔ (compareXml parse true x1 x2).2 = []) ∧
    ((compareXml parse true x1 x2).2 = [] →
      xmlDiffReport parse x1 x2 = "XML documents are identical.") ∧
    ((compareXml parse true x1 x2).2 ≠ [] →
      xmlDiffReport parse x1 x2 =
        String.intercalate "\n"
          (("Found " ++ toString (compareXml parse true x1 x2).2.length ++
              " difference(s):") ::
            numberedFrom 1 ((compareXml parse true x1 x2).2.take 20) ++
            (if 20 < (compareXml parse true x1 x2).2.length then
              ["  ... and " ++ toString ((compareXml parse true x1 x2).2.length - 20) ++ " more"]
            else [])) ∧
      ((compareXml parse true x1 x2).2.take 20).length =
        min 20 (compareXml parse true x1 x2).2.length ∧
      (20 < (compareXml parse true x1 x2).2.length →
        (compareXml parse true x1 x2).2.length - 20 =
          (compareXml parse true x1 x2).2.length -
            ((compareXml parse true x1 x2).2.take 20).length)) := by
  have hfst := compareXml_fst parse true x1 x2
  refine ⟨?_, ?_, ?_⟩
  · rw [hfst]
    exact List.isEmpty_iff
  · intro h
    have h1 : (compareXml parse true x1 x2).1 = true := by
      rw [hfst, h]
      rfl
    simp [xmlDiffReport, h1]
  · intro h
    have h1 : (compareXml parse true x1 x2).1 = false := by
      rw [hfst]
      exact List.isEmpty_eq_false.mpr h
    refine ⟨?_, ?_, ?_⟩
    · rw [xmlDiffReport, h1]
      simp only [Bool.false_eq_true, if_false]
      rw [numberedFrom_eq_zip ((compareXml parse true x1 x2).2.take 20) 1]
    · exact List.length_take 20 (compareXml parse true x1 x2).2
    · intro h20
      rw [List.length_take]
      omega

/-- C7 witness: a pair of unparseable documents, giving one recorded
difference, hence a report with one numbered entry and no truncation
line. -/
theorem xml_diff_report_shape_witness :
    (compareXml wParse true "a" "b").2 ≠ [] ∧
    xmlDiffReport wParse "a" "b" =
      String.intercalate "\n"
        (("Found " ++ toString (compareXml wParse true "a" "b").2.length ++
            " difference(s):") ::
          numberedFrom 1 ((compareXml wParse true "a" "b").2.take 20) ++
          (if 20 < (compareXml wParse true "a" "b").2.length then
            ["  ... and " ++ toString ((compareXml wParse true "a" "b").2.length - 20) ++ " more"]
          else [])) := by
  have key := xml_diff_report_shape wParse "a" "b"
  exact ⟨by decide, (key.2.2 (by decide)).1⟩

/-- C8: a namespace-stripped tag mismatch records exactly one
difference, tagged with the path passed to the comparison of that node
pair, and compares nothing else at or below that node: no text,
attribute, child-count or child difference from that subtree is
recorded. -/
theorem compare_elements_tag_mismatch
    (e1 e2 : XmlElement) (path : String)
    (h : stripNamespace e1.tag ≠ stripNamespace e2.tag) :
    compareElements e1 e2 path true =
      ["Tag mismatch at " ++ path ++ ": \x27" ++ stripNamespace e1.tag ++
       "\x27 vs \x27" ++ stripNamespace e2.tag ++ "\x27"] := by
  cases e1 with
  | mk t1 a1 x1 c1 =>
    cases e2 with
    | mk t2 a2 x2 c2 =>
      simp only [XmlElement.tag] at h
      simp [compareElements, XmlElement.tag, h]

/-- C8 witness: two single-node documents with differing tags. -/
theorem compare_elements_tag_mismatch_witness :
    stripNamespace (XmlElement.mk "a" [] "1" []).tag ≠
      stripNamespace (XmlElement.mk "b" [] "1" []).tag ∧
    compareElements (XmlElement.mk "a" [] "1" []) (XmlElement.mk "b" [] "1" []) "" true =
      ["Tag mismatch at " ++ "" ++ ": \x27" ++
       stripNamespace (XmlElement.mk "a" [] "1" []).tag ++ "\x27 vs \x27" ++
       stripNamespace (XmlElement.mk "b" [] "1" []).tag ++ "\x27"] := by
  refine ⟨by decide, ?_⟩
  exact compare_elements_tag_mismatch (XmlElement.mk "a" [] "1" [])
    (XmlElement.mk "b" [] "1" []) "" (by decide)

/-- C9: the feedback compiler is a pure function of the test result
and threshold: it returns the empty string whenever
`accuracy ≥ threshold`, and otherwise a header with accuracy and
passed/total counts, the top-level error text when present, and, in
pair order, a labeled section for every failed detail carrying the
diagnostic verbatim or, when the diagnostic is absent, the
expected/actual excerpts. -/
theorem build_feedback_spec (r : TestResult) (threshold : ℚ) :
    (threshold ≤ r.accuracy → buildFeedback (some r) threshold = "") ∧
    (r.accuracy < threshold →
      buildFeedback (some r) threshold =
        String.intercalate "\n"
          (["Previous iteration accuracy: " ++ pctStr r.accuracy ++ ".",
            "Passed " ++ toString r.passed_pairs ++ "/" ++
              toString r.total_pairs ++ " pairs.",
            ""] ++
           (if r.error_message ≠ "" then ["Error: " ++ r.error_message, ""] else []) ++
           (r.details.filter (fun d => d.passed = false)).flatMap feedbackSection)) ∧
    (∀ d : TestDetail, d.passed = false → d.diff ≠ "" →
      feedbackSection d =
        ["--- Pair " ++ d.pair_id ++ " FAILED ---", "Diff:\n" ++ d.diff, ""]) := by
  refine ⟨?_, ?_, ?_⟩
  · intro h
    simp [buildFeedback, h]
  · intro h
    have hn : ¬ (threshold ≤ r.accuracy) := not_le.mpr h
    simp [buildFeedback, hn, flatMap_feedbackSection_filter]
  · intro d h1 h2
    simp [feedbackSection, h1, h2]

/-- C9 witness: a below-threshold result with one failed detail whose
diagnostic is non-empty. -/
theorem build_feedback_spec_witness :
    buildFeedback (some wTestLow) (19/20) =
      String.intercalate "\n"
        (["Previous iteration accuracy: " ++ pctStr wTestLow.accuracy ++ ".",
          "Passed " ++ toString wTestLow.passed_pairs ++ "/" ++
            toString wTestLow.total_pairs ++ " pairs.",
          ""] ++
         (if wTestLow.error_message ≠ "" then ["Error: " ++ wTestLow.error_message, ""] else []) ++
         (wTestLow.details.filter (fun d => d.passed = false)).flatMap feedbackSection) ∧
    feedbackSection { pair_id := "p1", passed := false, expected_snippet := "<o1/>",
                      actual_snippet := "", diff := "d" } =
      ["--- Pair " ++ "p1" ++ " FAILED ---", "Diff:\n" ++ "d", ""] := by
  have key := build_feedback_spec wTestLow (19/20)
  refine ⟨key.2.1 (by norm_num [wTestLow]), ?_⟩
  exact key.2.2 _ rfl (by decide)

/-- C1: when every collaborator call succeeds and the Tester reports
accuracy below the threshold on every iteration, `run` performs exactly
`max_iterations` full Analyze-Generate-Test cycles and ends COMPLETED
(never FAILED) with the `max iterations reached` message naming the
final accuracy. -/
theorem run_exhausts_budget_completed
    (co : Collabs) (tb : String) (job : ConversionJob)
    (Aresp : ℕ → String → Response AnalysisResult)
    (Gresp : ℕ → String → Response GeneratedCode)
    (Tresp : ℕ → Response TestResult)
    (hA : ∀ i fb, co.analyze i fb = Except.ok (Aresp i fb))
    (hA4 : ∀ i fb, (Aresp i fb).statusCode < 400)
    (hG : ∀ i fb, co.generate i fb = Except.ok (Gresp i fb))
    (hG4 : ∀ i fb, (Gresp i fb).statusCode < 400)
    (hT : ∀ i, co.test i = Except.ok (Tresp i))
    (hT4 : ∀ i, (Tresp i).statusCode < 400)
    (hTacc : ∀ i, (Tresp i).payload.accuracy < job.accuracy_threshold)
    (h0 : job.current_iteration = 0)
    (hmax : 0 < job.max_iterations) :
    (run co tb job).1.status = JobStatus.completed ∧
    (run co tb job).1.status ≠ JobStatus.failed ∧
    (run co tb job).1.message =
      "Completed after " ++ toString job.max_iterations ++ " iteration(s) with " ++
      pctStr (Tresp job.max_iterations).payload.accuracy ++
      " accuracy (max iterations reached)." ∧
    (run co tb job).2 = cyclesFrom 1 job.max_iterations := by
  have key := runAux_exhausts co tb job.accuracy_threshold Aresp Gresp Tresp
    hA hA4 hG hG4 hT hT4 hTacc
    (job.max_iterations - job.current_iteration) job "" rfl (by omega)
    (by intro hz; exfalso; omega)
  rw [run]
  rcases key with ⟨k1, k2, k3⟩
  refine ⟨k1, ?_, k2, ?_⟩
  · rw [k1]
    decide
  · rw [k3, h0]
    simp

/-- C1 witness: all collaborators succeed, the Tester always reports
50% accuracy against a 95% threshold, and the budget is two
iterations. -/
theorem run_exhausts_budget_completed_witness :
    (run wCollabsOk "TB" wJob).1.status = JobStatus.completed ∧
    (run wCollabsOk "TB" wJob).1.status ≠ JobStatus.failed ∧
    (run wCollabsOk "TB" wJob).1.message =
      "Completed after " ++ toString wJob.max_iterations ++ " iteration(s) with " ++
      pctStr wTestLow.accuracy ++ " accuracy (max iterations reached)." ∧
    (run wCollabsOk "TB" wJob).2 = cyclesFrom 1 wJob.max_iterations := by
  have key := run_exhausts_budget_completed wCollabsOk "TB" wJob
    (fun _ _ => wRespA) (fun _ _ => wRespG) (fun _ => wRespT)
    (fun _ _ => rfl) (fun _ _ => by norm_num [wRespA])
    (fun _ _ => rfl) (fun _ _ => by norm_num [wRespG])
    (fun _ => rfl) (fun _ => by norm_num [wRespT])
    (fun _ => by norm_num [wRespT, wTestLow, wJob])
    rfl (by norm_num [wJob])
  exact key

/-- C5 counterexample: when a collaborator call raises a transport
exception (here Analyze raising `Connection refused` on the first
iteration), `run` does abort immediately with status FAILED, but the
message is `Error: <exception text>` plus the trace and does not carry
the collaborator's name in the form `[<CollaboratorName>] <status>:
<detail>` — it contains no `[Analyzer]` at all. -/
theorem run_raise_message_lacks_collaborator_name :
    (run cxCollabs "TRACE" wJob).1.status = JobStatus.failed ∧
    (run cxCollabs "TRACE" wJob).1.message = "Error: Connection refused\nTRACE" ∧
    hasSub (run cxCollabs "TRACE" wJob).1.message "[Analyzer]" = false ∧
    (run cxCollabs "TRACE" wJob).2 = [⟨Stage.analyzeStage, 1⟩] := by
  refine ⟨?_, ?_, ?_, ?_⟩ <;> decide

/-- C5 (amended): if any collaborator call raises or returns a
non-success response — all earlier calls of the run having succeeded
with below-threshold accuracy — `run` aborts the loop immediately with
no further collaborator calls and sets status FAILED; the message is
`Error: D` plus the diagnostic trace, where for a non-success response
`D` is `[<CollaboratorName>] <status>: <detail>` (detail truncated to
500 characters when the body is not JSON) and for a raised exception
`D` is the exception's own description. -/
theorem run_collaborator_failure_aborts
    (co : Collabs) (tb : String) (job : ConversionJob)
    (k : ℕ) (s : Stage) (D : String)
    (Aresp : ℕ → String → Response AnalysisResult)
    (Gresp : ℕ → String → Response GeneratedCode)
    (Tresp : ℕ → Response TestResult)
    (AkResp : String → Response AnalysisResult)
    (GkResp : String → Response GeneratedCode)
    (hA : ∀ i fb, i < k →
      co.analyze i fb = Except.ok (Aresp i fb) ∧ (Aresp i fb).statusCode < 400)
    (hG : ∀ i fb, i < k →
      co.generate i fb = Except.ok (Gresp i fb) ∧ (Gresp i fb).statusCode < 400)
    (hT : ∀ i, i < k →
      co.test i = Except.ok (Tresp i) ∧ (Tresp i).statusCode < 400 ∧
        (Tresp i).payload.accuracy < job.accuracy_threshold)
    (hAk : s ≠ Stage.analyzeStage → ∀ fb,
      co.analyze k fb = Except.ok (AkResp fb) ∧ (AkResp fb).statusCode < 400)
    (hGk : s = Stage.testStage → ∀ fb,
      co.generate k fb = Except.ok (GkResp fb) ∧ (GkResp fb).statusCode < 400)
    (hFa : s = Stage.analyzeStage → ∀ fb, failsWith (co.analyze k fb) "Analyzer" D)
    (hFg : s = Stage.generateStage → ∀ fb, failsWith (co.generate k fb) "Generator" D)
    (hFt : s = Stage.testStage → failsWith (co.test k) "Tester" D)
    (h0 : job.current_iteration = 0)
    (hk1 : 1 ≤ k) (hkm : k ≤ job.max_iterations) :
    (run co tb job).1.status = JobStatus.failed ∧
    (run co tb job).1.message = failMessage D tb ∧
    (run co tb job).2 = cyclesFrom 1 (k - 1) ++ stageCalls s k := by
  have key := runAux_fails co tb job.accuracy_threshold k s D Aresp Gresp Tresp
    AkResp GkResp hA hG hT hAk hGk hFa hFg hFt
    (job.max_iterations - job.current_iteration) job "" rfl (by omega) (by omega) hkm
  rw [run]
  rcases key with ⟨k1, k2, k3⟩
  refine ⟨k1, k2, ?_⟩
  rw [k3, h0]
  simp

/-- C5 (amended) witness: iteration 1 runs a full successful
low-accuracy cycle, then the Generator returns HTTP 500 with detail
`boom` at iteration 2: the run fails with the
`[Generator] 500: boom` message and no call after that Generator
call. -/
theorem run_collaborator_failure_aborts_witness :
    (run wCollabsG500 "TB" wJob).1.status = JobStatus.failed ∧
    (run wCollabsG500 "TB" wJob).1.message =
      failMessage "[Generator] 500: boom" "TB" ∧
    (run wCollabsG500 "TB" wJob).2 =
      cyclesFrom 1 1 ++ stageCalls Stage.generateStage 2 := by
  have key := run_collaborator_failure_aborts wCollabsG500 "TB" wJob 2
    Stage.generateStage "[Generator] 500: boom"
    (fun _ _ => wRespA) (fun _ _ => wRespG) (fun _ => wRespT)
    (fun _ => wRespA) (fun _ => wRespG)
    (fun i fb hi => ⟨rfl, by norm_num [wRespA]⟩)
    (fun i fb hi => by
      have hne : i ≠ 2 := by omega
      exact ⟨by simp [wCollabsG500, hne], by norm_num [wRespG]⟩)
    (fun i hi => ⟨rfl, by norm_num [wRespT], by norm_num [wRespT, wTestLow, wJob]⟩)
    (fun _ fb => ⟨rfl, by norm_num [wRespA]⟩)
    (fun h => nomatch h)
    (fun h => nomatch h)
    (fun _ fb => Or.inr ⟨wResp500, by simp [wCollabsG500], by norm_num [wResp500], by decide⟩)
    (fun h => nomatch h)
    rfl (by norm_num) (by norm_num [wJob])
  exact key
